import Mathlib

set_option maxHeartbeats 4000000
set_option maxRecDepth 100000
set_option linter.unusedVariables false

/-!
Shallow embedding of the WoundGuard image-analysis module
(src/src/utils/woundAnalysis.ts; the file contains the module twice and the
second copy, lines 1291-3073, is the one embedded here).

Modelling conventions:
 - JS numbers are exact rationals; JS division by zero is modelled by Lean
   division by zero (x / 0 = 0).  The places where the source can divide by
   zero are discussed in comments at the definitions concerned.
 - Math.sqrt only ever feeds comparisons, so each such comparison is replaced
   by the exact comparison of squares (both sides nonnegative).
 - An RGBA buffer of width w and height h is a total function from pixel
   index to pixel; the loops of the source visit exactly the indices below
   w*h, each once.
 - Math.atan in the skin-tone classifier is handled by parameterizing the
   classifier over the five tangent values of its fixed band bounds: arctan
   is strictly monotone, so the comparison ita > theta is exactly the
   comparison u > tan theta.  The parameters are universally quantified in
   every theorem that involves them.
-/

/-- RGBA pixel with byte channels, the entries of a Uint8ClampedArray slot. -/
structure Px where
  r : ℕ
  g : ℕ
  b : ℕ
  a : ℕ
deriving DecidableEq

/-- Zero pixel: the initial content of a fresh Uint8ClampedArray. -/
def Px.zero : Px := ⟨0, 0, 0, 0⟩

/-- JS Math.round for the nonnegative values it receives here: floor(x + 1/2). -/
def jsRound (x : ℚ) : ℤ := ⌊x + 1/2⌋

/-- JS remainder a % b: a - b * (quotient truncated toward zero). -/
def jsRem (a b : ℚ) : ℚ :=
  a - b * ((if 0 ≤ a / b then ⌊a / b⌋ else ⌈a / b⌉ : ℤ) : ℚ)

/-- ITU-R BT.601 luminance 0.299 R + 0.587 G + 0.114 B (woundAnalysis.ts line 2013). -/
def lumaQ (px : Px) : ℚ :=
  (299 : ℚ)/1000 * px.r + (587 : ℚ)/1000 * px.g + (114 : ℚ)/1000 * px.b

/-- HSV saturation (max - min)/max, 0 when max = 0 (line 2163). -/
def satQ (px : Px) : ℚ :=
  let mx : ℕ := max px.r (max px.g px.b)
  let mn : ℕ := min px.r (min px.g px.b)
  if mx = 0 then 0 else ((mx : ℚ) - mn) / mx

/-- HSV value max/255 (line 2164). -/
def valueQ (px : Px) : ℚ := (max px.r (max px.g px.b) : ℕ) / (255 : ℚ)

/-- HSV hue via the 6-piece max-channel formula, wrapped into [0,360)
    (lines 2173-2186, including the JS % 6 on the red branch). -/
def hueQ (px : Px) : ℚ :=
  let mx : ℕ := max px.r (max px.g px.b)
  let mn : ℕ := min px.r (min px.g px.b)
  let d : ℚ := (mx : ℚ) - mn
  if d = 0 then 0
  else
    let h0 : ℚ :=
      if mx = px.r then jsRem (((px.g : ℚ) - px.b) / d) 6
      else if mx = px.g then ((px.b : ℚ) - px.r) / d + 2
      else ((px.r : ℚ) - px.g) / d + 4
    let h1 := h0 * 60
    if h1 < 0 then h1 + 360 else h1

/-- Alpha test imageData[i+3] >= 128 used by every pass of the detector. -/
def opq (data : ℕ → Px) (p : ℕ) : Bool := decide (128 ≤ (data p).a)

/-- Sum of a per-pixel value over the alpha-passing pixels of the image. -/
def opqSum (data : ℕ → Px) (n : ℕ) (f : Px → ℚ) : ℚ :=
  ∑ p ∈ Finset.range n, if opq data p then f (data p) else 0

/-- Average red over the image; the source divides the alpha-filtered sum by
    the full pixel count, guarded by totalPixels > 0 (lines 2032-2037). -/
def avgRedQ (data : ℕ → Px) (w h : ℕ) : ℚ :=
  if 0 < w * h then opqSum data (w * h) (fun px => px.r) / ((w * h : ℕ) : ℚ) else 0

/-- Average green, as avgRedQ. -/
def avgGreenQ (data : ℕ → Px) (w h : ℕ) : ℚ :=
  if 0 < w * h then opqSum data (w * h) (fun px => px.g) / ((w * h : ℕ) : ℚ) else 0

/-- Average blue, as avgRedQ. -/
def avgBlueQ (data : ℕ → Px) (w h : ℕ) : ℚ :=
  if 0 < w * h then opqSum data (w * h) (fun px => px.b) / ((w * h : ℕ) : ℚ) else 0

/-- Average luminance, as avgRedQ. -/
def avgLumaQ (data : ℕ → Px) (w h : ℕ) : ℚ :=
  if 0 < w * h then opqSum data (w * h) lumaQ / ((w * h : ℕ) : ℚ) else 0

/-- The detector-internal skin-pixel heuristic (lines 2019-2022): red highest,
    red - min(g,b) > 10, g > 0.4 r, b > 0.25 r, r - g < 0.5 r. -/
def isSkinPixelD (px : Px) : Bool :=
  decide (px.g < px.r) && decide (px.b < px.r) &&
  decide ((10 : ℚ) < (px.r : ℚ) - (min px.g px.b : ℕ)) &&
  decide ((2 : ℚ)/5 * px.r < px.g) && decide ((1 : ℚ)/4 * px.r < px.b) &&
  decide ((px.r : ℚ) - px.g < (1 : ℚ)/2 * px.r)

/-- Count of alpha-passing detector-skin pixels. -/
def skinCntD (data : ℕ → Px) (n : ℕ) : ℕ :=
  ((Finset.range n).filter (fun p => (opq data p && isSkinPixelD (data p)) = true)).card

/-- Channel sum over alpha-passing detector-skin pixels. -/
def skinSumD (data : ℕ → Px) (n : ℕ) (f : Px → ℚ) : ℚ :=
  ∑ p ∈ Finset.range n, if opq data p && isSkinPixelD (data p) then f (data p) else 0

/-- skinToneReference flag: skinPixelCount > totalPixels * 0.1 (line 2041). -/
def skinRefB (data : ℕ → Px) (w h : ℕ) : Bool :=
  decide (((w * h : ℕ) : ℚ) * (1/10) < (skinCntD data (w * h) : ℚ))

/-- skinToneR after the reference decision (lines 2041-2051). -/
def skinToneRQ (data : ℕ → Px) (w h : ℕ) : ℚ :=
  if skinRefB data w h then
    skinSumD data (w * h) (fun px => px.r) / (skinCntD data (w * h) : ℚ)
  else avgRedQ data w h

/-- skinToneG, as skinToneRQ. -/
def skinToneGQ (data : ℕ → Px) (w h : ℕ) : ℚ :=
  if skinRefB data w h then
    skinSumD data (w * h) (fun px => px.g) / (skinCntD data (w * h) : ℚ)
  else avgGreenQ data w h

/-- skinToneB, as skinToneRQ. -/
def skinToneBQ (data : ℕ → Px) (w h : ℕ) : ℚ :=
  if skinRefB data w h then
    skinSumD data (w * h) (fun px => px.b) / (skinCntD data (w * h) : ℚ)
  else avgBlueQ data w h

/-- skinToneLuma (line 2120). -/
def skinLumaQ (data : ℕ → Px) (w h : ℕ) : ℚ :=
  (299 : ℚ)/1000 * skinToneRQ data w h + (587 : ℚ)/1000 * skinToneGQ data w h +
  (114 : ℚ)/1000 * skinToneBQ data w h

/-- Raw luminance-variance accumulator of lines 2054-2060 (not yet divided). -/
def lumaVarQ (data : ℕ → Px) (w h : ℕ) : ℚ :=
  opqSum data (w * h) (fun px => (lumaQ px - avgLumaQ data w h) ^ 2)

/-- Shadow test of line 2170: luma < shadowThreshold and saturation < 0.3,
    where shadowThreshold = avgLuma - 1.5 * sqrt(variance/totalPixels).
    The square root is eliminated: for d = avgLuma - luma the comparison
    1.5 * sqrt(v) < d is equivalent to 0 < d and 2.25 * v < d^2. -/
def isShadowAt (data : ℕ → Px) (w h p : ℕ) : Bool :=
  let d := avgLumaQ data w h - lumaQ (data p)
  decide (0 < d ∧ (9 : ℚ)/4 * (lumaVarQ data w h / ((w * h : ℕ) : ℚ)) < d ^ 2) &&
  decide (satQ (data p) < (3 : ℚ)/10)

/-- Edge map of lines 2069-2095: interior pixels whose maximal 4-neighbour
    luminance difference exceeds 15; all other entries stay 0. -/
def edgeAt (data : ℕ → Px) (w h x y : ℕ) : Bool :=
  if 1 ≤ x ∧ x + 1 < w ∧ 1 ≤ y ∧ y + 1 < h then
    let c := lumaQ (data (y * w + x))
    let tL := lumaQ (data ((y - 1) * w + x))
    let rL := lumaQ (data (y * w + (x + 1)))
    let bL := lumaQ (data ((y + 1) * w + x))
    let lL := lumaQ (data (y * w + (x - 1)))
    decide ((15 : ℚ) < max |c - tL| (max |c - rL| (max |c - bL| |c - lL|)))
  else false

/-- ROI test: pixels are skipped only when a mask is supplied and is false. -/
def roiPass (roi : Option (ℕ → Bool)) (p : ℕ) : Bool :=
  match roi with
  | none => true
  | some m => m p

/-- Number of pixels entering the avgRedRatio loop of lines 2105-2114; note
    that this loop has no alpha test in the source. -/
def ratioCntN (data : ℕ → Px) (n : ℕ) : ℕ :=
  ((Finset.range n).filter (fun p => 0 < (data p).g ∧ 0 < (data p).b)).card

/-- Accumulated red/((green+blue)/2) of the avgRedRatio loop. -/
def ratioSumQ (data : ℕ → Px) (n : ℕ) : ℚ :=
  ∑ p ∈ Finset.range n,
    if 0 < (data p).g ∧ 0 < (data p).b
    then ((data p).r : ℚ) / ((((data p).g : ℚ) + (data p).b) / 2) else 0

/-- avgRedRatio (line 2116), defaulting to 1 with no samples. -/
def avgRedRatioQ (data : ℕ → Px) (n : ℕ) : ℚ :=
  if 0 < ratioCntN data n then ratioSumQ data n / (ratioCntN data n : ℚ) else 1

/-- The sensitivity settings record handed to detectWound. -/
structure DetectionSettings where
  hueRange : ℚ
  satMin : ℚ
  redRatio : ℚ
deriving DecidableEq

/-- adaptiveRedRatioThreshold (lines 2127-2136). -/
def adaptThrQ (data : ℕ → Px) (w h : ℕ) (s : DetectionSettings) : ℚ :=
  let sl := skinLumaQ data w h
  if sl < 80 then max ((21 : ℚ)/20) (avgRedRatioQ data (w * h) * (9/10))
  else if sl < 120 then max ((27 : ℚ)/25) (avgRedRatioQ data (w * h) * (19/20))
  else max s.redRatio (avgRedRatioQ data (w * h))

/-- adaptiveSaturationMin (lines 2127-2136). -/
def adaptSatQ (data : ℕ → Px) (w h : ℕ) (s : DetectionSettings) : ℚ :=
  let sl := skinLumaQ data w h
  if sl < 80 then max ((2 : ℚ)/25) (s.satMin * (3/5))
  else if sl < 120 then max ((3 : ℚ)/25) (s.satMin * (4/5))
  else s.satMin

/-- relativeSkinRedness (line 2190).  Both inner denominators are positive;
    the outer denominator is 0 only when skinToneR = 0, which forces every
    alpha-passing pixel to have red 0, so the detection outcome below agrees
    with the NaN-propagating JS evaluation at every pixel. -/
def relRedQ (data : ℕ → Px) (w h p : ℕ) : ℚ :=
  (((data p).r : ℚ) / (((data p).g : ℚ) + (data p).b + 1)) /
    (skinToneRQ data w h / (skinToneGQ data w h + skinToneBQ data w h + 1))

/-- Arithmetic stepping by 2 from a up to b inclusive, as the JS loops
    for (n = a; n <= b; n += 2). -/
def steps2 (a b : ℕ) : List ℕ :=
  if a ≤ b then (List.range ((b - a) / 2 + 1)).map (fun k => a + 2 * k) else []

/-- Neighbourhood sample positions of (x,y) (lines 2196-2218): rows and
    columns stepping by 2 from max(0,coord-5), excluding the centre and the
    points at distance above 5 (compared via squares). -/
def nbrs (w h x y : ℕ) : List (ℕ × ℕ) :=
  ((steps2 (y - 5) (min (h - 1) (y + 5))).flatMap (fun ny =>
    (steps2 (x - 5) (min (w - 1) (x + 5))).map (fun nx => (nx, ny)))).filter
    (fun q => !(decide (q.1 = x ∧ q.2 = y)) &&
      decide (((q.1 : ℤ) - x) ^ 2 + ((q.2 : ℤ) - y) ^ 2 ≤ 25))

/-- Neighbourhood samples that also pass the ROI and alpha tests. -/
def nbrsOK (data : ℕ → Px) (roi : Option (ℕ → Bool)) (w h x y : ℕ) : List (ℕ × ℕ) :=
  (nbrs w h x y).filter (fun q => roiPass roi (q.2 * w + q.1) && opq data (q.2 * w + q.1))

/-- localRedContrastRatio (lines 2221-2232), defaulting to 1. -/
def localContrastQ (data : ℕ → Px) (roi : Option (ℕ → Bool)) (w h x y : ℕ) : ℚ :=
  let ns := nbrsOK data roi w h x y
  let c : ℕ := ns.length
  if 0 < c then
    let lr := (ns.map (fun q => ((data (q.2 * w + q.1)).r : ℚ))).sum / (c : ℚ)
    let lg := (ns.map (fun q => ((data (q.2 * w + q.1)).g : ℚ))).sum / (c : ℚ)
    let lb := (ns.map (fun q => ((data (q.2 * w + q.1)).b : ℚ))).sum / (c : ℚ)
    if 0 < lg ∧ 0 < lb then
      let px := data (y * w + x)
      ((px.r : ℚ) / ((((px.g : ℚ) + px.b)) / 2)) / (lr / ((lg + lb) / 2))
    else 1
  else 1

/-- redRatio of the current pixel (line 2235), defaulting to 1. -/
def pixRatioQ (px : Px) : ℚ :=
  if 0 < px.g + px.b then (px.r : ℚ) / ((((px.g : ℚ) + px.b)) / 2) else 1

/-- isWoundHue (lines 2242-2246). -/
def woundHueB (data : ℕ → Px) (w h p : ℕ) : Bool :=
  let hv := hueQ (data p)
  decide ((0 ≤ hv ∧ hv ≤ 30) ∨ (340 ≤ hv ∧ hv ≤ 360) ∨
    (300 ≤ hv ∧ hv ≤ 339 ∧ satQ (data p) < 1/2 ∧ (27 : ℚ)/25 < relRedQ data w h p))

/-- isRedHigher (lines 2249-2251): relative for skin luminance below 100,
    absolute against the adaptive threshold otherwise. -/
def redHigherB (data : ℕ → Px) (w h : ℕ) (s : DetectionSettings)
    (roi : Option (ℕ → Bool)) (x y : ℕ) : Bool :=
  if skinLumaQ data w h < 100 then
    decide ((23 : ℚ)/20 < relRedQ data w h (y * w + x)) ||
    decide ((11 : ℚ)/10 < localContrastQ data roi w h x y)
  else
    decide (((data (y * w + x)).g : ℚ) * adaptThrQ data w h s < ((data (y * w + x)).r : ℚ)) &&
    decide (((data (y * w + x)).b : ℚ) * adaptThrQ data w h s < ((data (y * w + x)).r : ℚ))

/-- isReasonablySaturated (line 2253). -/
def satOKB (data : ℕ → Px) (w h : ℕ) (s : DetectionSettings) (p : ℕ) : Bool :=
  decide (adaptSatQ data w h s < satQ (data p)) && decide (satQ (data p) < (19 : ℚ)/20)

/-- isReasonablyBright (lines 2254-2256). -/
def brightB (data : ℕ → Px) (w h p : ℕ) : Bool :=
  if skinLumaQ data w h < 80 then
    decide ((2 : ℚ)/25 < valueQ (data p) ∧ valueQ (data p) < (19 : ℚ)/20)
  else
    decide ((3 : ℚ)/20 < valueQ (data p) ∧ valueQ (data p) < (9 : ℚ)/10)

/-- isAboveAvg (lines 2258-2260). -/
def aboveAvgB (data : ℕ → Px) (w h p : ℕ) : Bool :=
  if skinRefB data w h then decide ((21 : ℚ)/20 < relRedQ data w h p)
  else decide (avgRedQ data w h * (21/20) < ((data p).r : ℚ))

/-- detectAsWound (lines 2271-2276). -/
def detectB (data : ℕ → Px) (w h : ℕ) (s : DetectionSettings)
    (roi : Option (ℕ → Bool)) (x y : ℕ) : Bool :=
  let p := y * w + x
  if skinLumaQ data w h < 80 then
    (woundHueB data w h p || decide ((23 : ℚ)/20 < relRedQ data w h p)) &&
    decide ((27 : ℚ)/25 < localContrastQ data roi w h x y) && brightB data w h p
  else
    (woundHueB data w h p && redHigherB data w h s roi x y &&
      satOKB data w h s p && brightB data w h p) ||
    (edgeAt data w h x y &&
      decide (adaptThrQ data w h s * (11/10) < pixRatioQ (data p)) && brightB data w h p)

/-- Weighted raw confidence of lines 2280-2297 (before the clamp). -/
def confRawQ (data : ℕ → Px) (w h : ℕ) (s : DetectionSettings)
    (roi : Option (ℕ → Bool)) (x y : ℕ) : ℚ :=
  let p := y * w + x
  let sl := skinLumaQ data w h
  let hv := hueQ (data p)
  let hueF : ℚ :=
    if woundHueB data w h p then 1 - min |hv - 0| |hv - 360| / 30 else 3/10
  let redF : ℚ :=
    if sl < 100 then min 1 ((relRedQ data w h p - 1) * (6/5))
    else min 1 ((pixRatioQ (data p) - 1) * (3/5))
  let satF : ℚ := min 1 (satQ (data p) / (if sl < 100 then (2 : ℚ)/5 else (3 : ℚ)/5))
  let lcw : ℚ := if sl < 100 then 7/20 else 1/10
  (hueF * (3/10) + redF * (2/5) + satF * (1/5) +
      min 1 ((localContrastQ data roi w h x y - 1) * 2) * lcw) *
    (if aboveAvgB data w h p then (11 : ℚ)/10 else 9/10) *
    (if edgeAt data w h x y then (9 : ℚ)/10 else 1)

/-- Clamped per-pixel confidence (line 2299). -/
def confQ (data : ℕ → Px) (w h : ℕ) (s : DetectionSettings)
    (roi : Option (ℕ → Bool)) (x y : ℕ) : ℚ :=
  min 1 (max 0 (confRawQ data w h s roi x y))

/-- Skin-tone dependent confidence threshold (line 2302). -/
def confThrQ (data : ℕ → Px) (w h : ℕ) : ℚ :=
  if skinLumaQ data w h < 100 then 7/25 else 7/20

/-- Main-pass acceptance of pixel p: ROI and alpha tests, not a shadow,
    classified as wound and confidence above the threshold (lines 2139-2314). -/
def pass1B (data : ℕ → Px) (w h : ℕ) (s : DetectionSettings)
    (roi : Option (ℕ → Bool)) (p : ℕ) : Bool :=
  roiPass roi p && opq data p && !(isShadowAt data w h p) &&
  detectB data w h s roi (p % w) (p / w) &&
  decide (confThrQ data w h < confQ data w h s roi (p % w) (p / w))

/-- Pixels accepted by the main pass. -/
def pass1Set (data : ℕ → Px) (w h : ℕ) (s : DetectionSettings)
    (roi : Option (ℕ → Bool)) : Finset ℕ :=
  (Finset.range (w * h)).filter (fun p => pass1B data w h s roi p = true)

/-- woundPixelCount after the main pass. -/
def pass1Cnt (data : ℕ → Px) (w h : ℕ) (s : DetectionSettings)
    (roi : Option (ℕ → Bool)) : ℕ :=
  (pass1Set data w h s roi).card

/-- confidenceSum after the main pass. -/
def pass1Sum (data : ℕ → Px) (w h : ℕ) (s : DetectionSettings)
    (roi : Option (ℕ → Bool)) : ℚ :=
  ∑ p ∈ pass1Set data w h s roi, confQ data w h s roi (p % w) (p / w)

/-- Condition for the aggressive second pass (line 2320). -/
def pass2Active (data : ℕ → Px) (w h : ℕ) (s : DetectionSettings)
    (roi : Option (ℕ → Bool)) : Bool :=
  roi.isSome && decide ((pass1Cnt data w h s roi : ℚ) < ((w * h : ℕ) : ℚ) * (1/100)) &&
  decide (skinLumaQ data w h < 100)

/-- Second-pass acceptance of pixel p (lines 2325-2352). -/
def pass2B (data : ℕ → Px) (w h : ℕ) (roi : Option (ℕ → Bool)) (p : ℕ) : Bool :=
  roiPass roi p && opq data p &&
  decide (lumaQ (data p) < skinLumaQ data w h * (17/20)) &&
  decide ((min (data p).g (data p).b : ℕ) < (data p).r)

/-- Second-pass per-pixel confidence (line 2342). -/
def conf2Q (data : ℕ → Px) (w h p : ℕ) : ℚ :=
  (1 : ℚ)/2 * min 1 ((skinLumaQ data w h - lumaQ (data p)) / (skinLumaQ data w h * (3/10)))

/-- Pixels accepted by the second pass. -/
def pass2Set (data : ℕ → Px) (w h : ℕ) (roi : Option (ℕ → Bool)) : Finset ℕ :=
  (Finset.range (w * h)).filter (fun p => pass2B data w h roi p = true)

/-- woundPixelCount after the second pass (which resets the counters). -/
def pass2Cnt (data : ℕ → Px) (w h : ℕ) (roi : Option (ℕ → Bool)) : ℕ :=
  (pass2Set data w h roi).card

/-- confidenceSum after the second pass. -/
def pass2Sum (data : ℕ → Px) (w h : ℕ) (roi : Option (ℕ → Bool)) : ℚ :=
  ∑ p ∈ pass2Set data w h roi, conf2Q data w h p

/-- Detected-pixel count entering the noise-floor decision. -/
def finalCnt (data : ℕ → Px) (w h : ℕ) (s : DetectionSettings)
    (roi : Option (ℕ → Bool)) : ℕ :=
  if pass2Active data w h s roi then pass2Cnt data w h roi else pass1Cnt data w h s roi

/-- Confidence sum entering the final mean. -/
def finalSum (data : ℕ → Px) (w h : ℕ) (s : DetectionSettings)
    (roi : Option (ℕ → Bool)) : ℚ :=
  if pass2Active data w h s roi then pass2Sum data w h roi else pass1Sum data w h s roi

/-- The wound mask built by detectWound: the second pass overwrites its
    pixels and the marks of the main pass are not cleared elsewhere
    (lines 2309-2312 and 2348-2351); unmarked entries stay zero. -/
def maskPx (data : ℕ → Px) (w h : ℕ) (s : DetectionSettings)
    (roi : Option (ℕ → Bool)) (p : ℕ) : Px :=
  if p < w * h ∧ pass2Active data w h s roi = true ∧ pass2B data w h roi p = true then
    ⟨255, 0, 128, (jsRound (conf2Q data w h p * 200 + 55)).toNat⟩
  else if p < w * h ∧ pass1B data w h s roi p = true then
    ⟨255, 0, 128, (jsRound (confQ data w h s roi (p % w) (p / w) * 200 + 55)).toNat⟩
  else Px.zero

/-- Result record of both detectors. -/
structure DetectionResult where
  pixelCount : ℕ
  totalPixels : ℕ
  confidence : ℚ
  woundMask : ℕ → Px

/-- detectWound (lines 1980-2376): two-pass heuristic classification followed
    by the noise-floor decision of lines 2356-2368. -/
def detectWound (data : ℕ → Px) (w h : ℕ) (s : DetectionSettings)
    (roi : Option (ℕ → Bool)) : DetectionResult :=
  if (finalCnt data w h s roi : ℚ) / ((w * h : ℕ) : ℚ) <
      (if roi.isSome then (1 : ℚ)/1000 else 1/200) then
    { pixelCount := 0, totalPixels := w * h, confidence := 0,
      woundMask := maskPx data w h s roi }
  else
    { pixelCount := finalCnt data w h s roi, totalPixels := w * h,
      confidence :=
        if 0 < finalCnt data w h s roi then
          finalSum data w h s roi / (finalCnt data w h s roi : ℚ)
        else 0,
      woundMask := maskPx data w h s roi }

/-- Bounding box option handed to the ML path. -/
structure MLBox where
  x0 : ℚ
  y0 : ℚ
  bw : ℚ
  bh : ℚ

/-- hasCrop decision of line 1744: the box is honoured only when both sides
    exceed 10. -/
def mlCrop (box : Option MLBox) : Option MLBox :=
  match box with
  | some bb => if 10 < bb.bw ∧ 10 < bb.bh then some bb else none
  | none => none

/-- Bilinear interpolation of the model output at source pixel (x,y) in the
    full-image branch (lines 1880-1907), clamped into [0,1]. -/
def mlLerpConfQ (out : ℕ → ℚ) (w h x y : ℕ) : ℚ :=
  let sx : ℚ := (x : ℚ) / w * 224
  let sy : ℚ := (y : ℚ) / h * 224
  let ix0 : ℤ := ⌊sx⌋
  let iy0 : ℤ := ⌊sy⌋
  let ix1 : ℤ := min (ix0 + 1) 223
  let iy1 : ℤ := min (iy0 + 1) 223
  let xw : ℚ := sx - ix0
  let yw : ℚ := sy - iy0
  let v00 := out (iy0 * 224 + ix0).toNat
  let v01 := out (iy0 * 224 + ix1).toNat
  let v10 := out (iy1 * 224 + ix0).toNat
  let v11 := out (iy1 * 224 + ix1).toNat
  let top := v00 * (1 - xw) + v01 * xw
  let bot := v10 * (1 - xw) + v11 * xw
  min 1 (max 0 (top * (1 - yw) + bot * yw))

/-- Model output lookup in the bounding-box branch (lines 1843-1864); none
    encodes the continue cases (outside the box or invalid mapped coords). -/
def mlBoxConfQ (out : ℕ → ℚ) (bb : MLBox) (x y : ℕ) : Option ℚ :=
  if bb.x0 ≤ (x : ℚ) ∧ (x : ℚ) < bb.x0 + bb.bw ∧ bb.y0 ≤ (y : ℚ) ∧ (y : ℚ) < bb.y0 + bb.bh then
    let mx : ℤ := ⌊((x : ℚ) - bb.x0) / bb.bw * 224⌋
    let my : ℤ := ⌊((y : ℚ) - bb.y0) / bb.bh * 224⌋
    if 0 ≤ mx ∧ mx < 224 ∧ 0 ≤ my ∧ my < 224 then
      some (out (my * 224 + mx).toNat)
    else none
  else none

/-- isWound decision of the ML postprocessing loop at pixel p. -/
def mlWoundB (out : ℕ → ℚ) (w h : ℕ) (box : Option MLBox) (p : ℕ) : Bool :=
  match mlCrop box with
  | some bb =>
    match mlBoxConfQ out bb (p % w) (p / w) with
    | some c => decide ((1 : ℚ)/2 < c)
    | none => false
  | none => decide ((1 : ℚ)/2 < mlLerpConfQ out w h (p % w) (p / w))

/-- Per-pixel confidence recorded by the ML postprocessing loop. -/
def mlConfQ (out : ℕ → ℚ) (w h : ℕ) (box : Option MLBox) (p : ℕ) : ℚ :=
  match mlCrop box with
  | some bb => (mlBoxConfQ out bb (p % w) (p / w)).getD 0
  | none => mlLerpConfQ out w h (p % w) (p / w)

/-- Pixels marked by the ML postprocessing loop. -/
def mlSet (out : ℕ → ℚ) (w h : ℕ) (box : Option MLBox) : Finset ℕ :=
  (Finset.range (w * h)).filter (fun p => mlWoundB out w h box p = true)

/-- detectWoundWithML postprocessing (lines 1833-1935).  The canvas resize,
    tensor assembly and onnx inference are external effects; out is the
    single-channel 224x224 probability map they produce, quantified in every
    theorem about this definition. -/
def detectWoundWithML (out : ℕ → ℚ) (w h : ℕ) (box : Option MLBox) : DetectionResult :=
  let S := mlSet out w h box
  { pixelCount := S.card
    totalPixels := w * h
    confidence := if 0 < S.card then (∑ p ∈ S, mlConfQ out w h box p) / (S.card : ℚ) else 0
    woundMask := fun p =>
      if p < w * h ∧ mlWoundB out w h box p = true then
        ⟨255, 0, 128, (jsRound (mlConfQ out w h box p * 200 + 55)).toNat⟩
      else Px.zero }

/-- The general skin-pixel heuristic isSkinPixel (lines 1640-1657): the
    classifier variant with b > 0.2 r and r - g < 0.65 r. -/
def isSkinPixel (px : Px) : Bool :=
  decide (px.g < px.r) && decide (px.b < px.r) &&
  decide ((10 : ℚ) < (px.r : ℚ) - (min px.g px.b : ℕ)) &&
  decide ((2 : ℚ)/5 * px.r < px.g) && decide ((1 : ℚ)/5 * px.r < px.b) &&
  decide ((px.r : ℚ) - px.g < (13 : ℚ)/20 * px.r)

/-- Sampling stride of analyzeSkinTone (line 1569): max(1, floor(sqrt(w*h)/100)),
    with Nat.sqrt being exactly the floor of the real square root. -/
def sampleStride (w h : ℕ) : ℕ := max 1 (Nat.sqrt (w * h) / 100)

/-- Pixel indices visited by the sampling grid of analyzeSkinTone. -/
def samplePts (w h : ℕ) : List ℕ :=
  let s := sampleStride w h
  (List.range ((h + s - 1) / s)).flatMap (fun yi =>
    (List.range ((w + s - 1) / s)).map (fun xi => (yi * s) * w + xi * s))

/-- The skin samples collected by analyzeSkinTone (lines 1571-1586). -/
def skinSamples (data : ℕ → Px) (w h : ℕ) : List Px :=
  ((samplePts w h).map data).filter (fun px => decide (128 ≤ px.a) && isSkinPixel px)

/-- Average skin colour of analyzeSkinTone with its neutral fallback
    (lines 1589-1607). -/
def avgSkinQ (data : ℕ → Px) (w h : ℕ) : ℚ × ℚ × ℚ :=
  let sk := skinSamples data w h
  if 0 < sk.length then
    (((sk.map (fun px => (px.r : ℚ))).sum / (sk.length : ℚ)),
     ((sk.map (fun px => (px.g : ℚ))).sum / (sk.length : ℚ)),
     ((sk.map (fun px => (px.b : ℚ))).sum / (sk.length : ℚ)))
  else (180, 140, 120)

/-- The five ITA-degree band bounds 55, 41, 28, 10, -30 of lines 1623-1628,
    represented by their tangents: ita > theta holds exactly when the arctan
    argument u exceeds tan(theta * pi/180), since arctan is strictly
    increasing and every bound lies strictly inside (-90, 90). -/
structure ItaTangents where
  t1 : ℚ
  t2 : ℚ
  t3 : ℚ
  t4 : ℚ
  t5 : ℚ

/-- Fitzpatrick band classification as a function of the arctan argument u
    (lines 1623-1628 through the tangent representation above). -/
def fitzFromU (th : ItaTangents) (u : ℚ) : ℕ :=
  if th.t1 < u then 1
  else if th.t2 < u then 2
  else if th.t3 < u then 3
  else if th.t4 < u then 4
  else if th.t5 < u then 5
  else 6

/-- The arctan argument of the ITA computation (lines 1618-1620):
    (luminance/255*100 - 50) / ((B - R)/2). -/
def uOfLum (lum cb : ℚ) : ℚ := (lum / 255 * 100 - 50) / cb

/-- Skin-tone analysis record. -/
structure SkinToneAnalysis where
  fitzpatrickType : ℕ
  avgR : ℚ
  avgG : ℚ
  avgB : ℚ
  luminance : ℚ

/-- analyzeSkinTone (lines 1560-1635), with the ITA bands through their
    tangent parameters. -/
def analyzeSkinTone (th : ItaTangents) (data : ℕ → Px) (w h : ℕ) : SkinToneAnalysis :=
  let av := avgSkinQ data w h
  let lum := (299 : ℚ)/1000 * av.1 + (587 : ℚ)/1000 * av.2.1 + (114 : ℚ)/1000 * av.2.2
  { fitzpatrickType := fitzFromU th (uOfLum lum ((av.2.2 - av.1) / 2))
    avgR := av.1
    avgG := av.2.1
    avgB := av.2.2
    luminance := lum }

/-- adaptSettingsForSkinTone (lines 1662-1699).  fitzFromU only produces the
    values 1..6, so the wildcard arm is unreachable. -/
def adaptSettingsForSkinTone (s : DetectionSettings) (st : SkinToneAnalysis) :
    DetectionSettings :=
  match st.fitzpatrickType with
  | 1 => { s with redRatio := s.redRatio * (11/10), satMin := s.satMin * (11/10) }
  | 2 => { s with redRatio := s.redRatio * (11/10), satMin := s.satMin * (11/10) }
  | 3 => s
  | 4 => s
  | 5 => { hueRange := s.hueRange * (11/10), satMin := s.satMin * (4/5),
           redRatio := s.redRatio * (9/10) }
  | 6 => { hueRange := s.hueRange * (6/5), satMin := s.satMin * (3/5),
           redRatio := s.redRatio * (4/5) }
  | _ => s

/-- getFitzpatrickDescription (lines 1546-1555). -/
def getFitzpatrickDescription (t : ℕ) : String :=
  match t with
  | 1 => "Very fair skin"
  | 2 => "Fair skin"
  | 3 => "Medium skin"
  | 4 => "Olive skin"
  | 5 => "Brown skin"
  | 6 => "Dark brown/black skin"
  | _ => ""

/-- Sensitivity levels of the options object. -/
inductive Sensitivity where
  | low
  | medium
  | high
deriving DecidableEq

/-- The preset table of lines 1422-1426. -/
def sensitivitySettings : Sensitivity → DetectionSettings
  | .low => ⟨15, 3/10, 23/20⟩
  | .medium => ⟨25, 1/5, 11/10⟩
  | .high => ⟨35, 3/20, 21/20⟩

/-- Name of a sensitivity level as interpolated into the method label. -/
def sensitivityName : Sensitivity → String
  | .low => "low"
  | .medium => "medium"
  | .high => "high"

/-- A user outline point. -/
structure Pt where
  x : ℚ
  y : ℚ

/-- A user outline: ordered points plus the closed flag. -/
structure Outline where
  pts : List Pt
  closed : Bool

/-- The analysis options object (the fields the embedded core consumes). -/
structure AnalysisOptions where
  sensitivityLevel : Option Sensitivity := none
  referenceSize : Option ℚ := none
  referenceWidth : Option ℚ := none
  assumedImageSize : Option ℚ := none
  userOutline : Option Outline := none
  boundingBox : Option MLBox := none
  useML : Bool := false

/-- JS truthiness of an optional numeric option: present and nonzero. -/
def optTruthy (o : Option ℚ) : Bool :=
  match o with
  | some q => decide (q ≠ 0)
  | none => false

/-- Point clamping of lines 1436-1441. -/
def clampPt (w h : ℕ) (q : Pt) : Pt :=
  ⟨min (max 0 q.x) (w : ℚ), min (max 0 q.y) (h : ℚ)⟩

/-- A rasterizer for createRegionOfInterestMask (lines 2387-2433): canvas
    polygon filling is an external effect, abstracted as a function from the
    clamped points, the closed flag and the dimensions to a pixel mask; it is
    quantified in every theorem that involves it. -/
def RoiRasterizer : Type := List Pt → Bool → ℕ → ℕ → (ℕ → Bool)

/-- ROI construction of lines 1434-1450: only an outline with more than two
    points produces a mask. -/
def roiOf (rast : RoiRasterizer) (opts : AnalysisOptions) (w h : ℕ) :
    Option (ℕ → Bool) :=
  match opts.userOutline with
  | some o =>
    if 2 < o.pts.length then some (rast (o.pts.map (clampPt w h)) o.closed w h)
    else none
  | none => none

/-- The heuristic branch of analyzeWoundImage (lines 1420-1480): preset
    selection, ROI construction, skin-tone adaptation, detection, the
    auto-boost retry and the method label. -/
def heuristicPass (th : ItaTangents) (rast : RoiRasterizer) (data : ℕ → Px)
    (w h : ℕ) (opts : AnalysisOptions) : DetectionResult × String :=
  let sens := opts.sensitivityLevel.getD .medium
  let settings := sensitivitySettings sens
  let roiMask := roiOf rast opts w h
  let m0 := "Color analysis (" ++ sensitivityName sens ++ " sensitivity)"
  let m1 := if roiMask.isSome then "User-guided " ++ m0 else m0
  let st := analyzeSkinTone th data w h
  let adapted := adaptSettingsForSkinTone settings st
  let r1 := detectWound data w h adapted roiMask
  let boosted :=
    if r1.pixelCount = 0 ∧ sens ≠ .high then
      let r2 := detectWound data w h
        (adaptSettingsForSkinTone (sensitivitySettings .high) st) roiMask
      if 0 < r2.pixelCount then (r2, m1 ++ " (auto-boosted sensitivity)") else (r1, m1)
    else (r1, m1)
  (boosted.1, boosted.2 ++ " - " ++ getFitzpatrickDescription st.fitzpatrickType)

/-- autoSegmentWound (lines 1964-1978): the stub kept for API compatibility.
    Its mask is the fresh zero-filled Uint8ClampedArray of length w*h*4. -/
def autoSegmentWound (_imageData : ℕ → Px) (w h : ℕ) (_skinTone : SkinToneAnalysis) :
    List ℕ × ℕ × ℚ :=
  (List.replicate (w * h * 4) 0, 0, 0)

/-- calibratedSizeEstimation (lines 2504-2511). -/
def calibratedSizeEstimation (referencePixels referenceSize targetPixels : ℚ) : ℚ :=
  targetPixels * (referenceSize / referencePixels)

/-- Wound-pixel test of the healing analyzer: image alpha at least 128 and
    mask alpha above 100 (lines 2951-2954). -/
def healPxB (data mask : ℕ → Px) (p : ℕ) : Bool :=
  opq data p && decide (100 < (mask p).a)

/-- Pixels the healing analyzer treats as wound. -/
def healSet (data mask : ℕ → Px) (w h : ℕ) : Finset ℕ :=
  (Finset.range (w * h)).filter (fun p => healPxB data mask p = true)

/-- The woundPixelCount of analyzeWoundHealingIndicators. -/
def healCnt (data mask : ℕ → Px) (w h : ℕ) : ℕ := (healSet data mask w h).card

/-- Skin samples of the healing analyzer first pass (lines 2894-2916):
    non-wound pixels on the (x+y) mod 7 grid that look like skin. -/
def healSkinSet (data mask : ℕ → Px) (w h : ℕ) : Finset ℕ :=
  (Finset.range (w * h)).filter (fun p =>
    (opq data p && decide ((mask p).a < 50) && decide ((p % w + p / w) % 7 = 0) &&
      isSkinPixel (data p)) = true)

/-- Average skin colour of the healing analyzer with its fallback
    (lines 2919-2939). -/
def healAvgSkinQ (data mask : ℕ → Px) (w h : ℕ) : ℚ × ℚ × ℚ :=
  let S := healSkinSet data mask w h
  if 0 < S.card then
    ((∑ p ∈ S, ((data p).r : ℚ)) / (S.card : ℚ),
     (∑ p ∈ S, ((data p).g : ℚ)) / (S.card : ℚ),
     (∑ p ∈ S, ((data p).b : ℚ)) / (S.card : ℚ))
  else (210, 180, 160)

/-- isYellowish of line 3011. -/
def yellowishB (px : Px) : Bool :=
  decide ((40 ≤ hueQ px ∧ hueQ px ≤ 80) ∨ (200 < px.r ∧ 180 < px.g ∧ px.b < 160))

/-- Tissue-type vote of lines 3022-3039: 0 granulation, 1 slough, 2 eschar,
    granulation again as the default arm. -/
def bucketOf (px : Px) : ℕ :=
  if 180 < px.r ∧ (px.g : ℚ) * (3/2) < px.r ∧ (px.b : ℚ) * (3/2) < px.r then 0
  else if (yellowishB px = true ∨ (170 < px.g ∧ 170 < px.r ∧ px.b < 150)) ∧
      (1 : ℚ)/2 < valueQ px then 1
  else if valueQ px < 1/4 ∨ (px.r < 130 ∧ px.g < 130 ∧ px.b < 130 ∧ satQ px < 3/10) then 2
  else 0

/-- granulationPixels. -/
def granCnt (data mask : ℕ → Px) (w h : ℕ) : ℕ :=
  ((healSet data mask w h).filter (fun p => bucketOf (data p) = 0)).card

/-- sloughPixels. -/
def sloughCnt (data mask : ℕ → Px) (w h : ℕ) : ℕ :=
  ((healSet data mask w h).filter (fun p => bucketOf (data p) = 1)).card

/-- escharPixels. -/
def escharCnt (data mask : ℕ → Px) (w h : ℕ) : ℕ :=
  ((healSet data mask w h).filter (fun p => bucketOf (data p) = 2)).card

/-- Per-pixel inflammation contribution (lines 2996-3004), with the JS
    (avgSkin.r || 1) fallbacks. -/
def inflLevelQ (sk : ℚ × ℚ × ℚ) (px : Px) : ℚ :=
  let dr := if sk.1 = 0 then 1 else sk.1
  let dg := if sk.2.1 = 0 then 1 else sk.2.1
  max 0 (min 1 (((px.r : ℚ) / dr - (px.g : ℚ) / dg) * 2 +
    (if (px.g : ℚ) * (13/10) < px.r ∧ (px.b : ℚ) * (13/10) < px.r then (1 : ℚ)/2 else 0) +
    (if 200 < px.r ∧ (2 : ℚ)/5 < satQ px then (3 : ℚ)/10 else 0)))

/-- Per-pixel exudate contribution (lines 3010-3018). -/
def exuLevelQ (px : Px) : ℚ :=
  let pale := satQ px < 1/4 ∧ (7 : ℚ)/10 < valueQ px
  let whitish := (200 < px.r ∧ 200 < px.g ∧ 180 < px.b) ∧ satQ px < (3 : ℚ)/20
  max 0 (min 1 (
    (if pale ∧ (yellowishB px = true ∨ whitish) then (7 : ℚ)/10 else 0) +
    (if (px.b : ℚ) * (6/5) < px.g ∧ (px.b : ℚ) * (6/5) < px.r ∧ (3 : ℚ)/5 < valueQ px
      then (1 : ℚ)/2 else 0) +
    (if (17 : ℚ)/20 < valueQ px ∧ satQ px < (1 : ℚ)/5 then (2 : ℚ)/5 else 0)))

/-- Healing-indicator record. -/
structure HealingIndicators where
  inflammationScore : ℚ
  exudateScore : ℚ
  rednessQuotient : ℚ
  granulation : ℚ
  slough : ℚ
  eschar : ℚ

/-- analyzeWoundHealingIndicators (lines 2866-3073). -/
def analyzeWoundHealingIndicators (data mask : ℕ → Px) (w h : ℕ) : HealingIndicators :=
  let S := healSet data mask w h
  let n := S.card
  let sk := healAvgSkinQ data mask w h
  let avgR : ℚ := if 0 < n then (∑ p ∈ S, ((data p).r : ℚ)) / (n : ℚ) else 0
  let avgG : ℚ := if 0 < n then (∑ p ∈ S, ((data p).g : ℚ)) / (n : ℚ) else 0
  let woundRedness : ℚ := if 0 < avgG then avgR / avgG else 1
  let skinRedness : ℚ := if 0 < sk.2.1 then sk.1 / sk.2.1 else 1
  let tot := granCnt data mask w h + sloughCnt data mask w h + escharCnt data mask w h
  { inflammationScore := if 0 < n then (∑ p ∈ S, inflLevelQ sk (data p)) / (n : ℚ) else 0
    exudateScore := if 0 < n then (∑ p ∈ S, exuLevelQ (data p)) / (n : ℚ) else 0
    rednessQuotient := if 0 < skinRedness then woundRedness / skinRedness else 1
    granulation := if 0 < tot then (granCnt data mask w h : ℚ) / (tot : ℚ) else 0
    slough := if 0 < tot then (sloughCnt data mask w h : ℚ) / (tot : ℚ) else 0
    eschar := if 0 < tot then (escharCnt data mask w h : ℚ) / (tot : ℚ) else 0 }

/-- Module-level model-load state (lines 40-43 of the module copy). -/
structure ModelState where
  isLoaded : Bool
  modelLoading : Bool
  progress : ℕ
  loadErr : Option String

/-- preloadWoundSegmentationModel (lines 1304-1348).  The onnx session
    creation is an external effect whose outcome is the Except argument; the
    function returns the success flag and the updated module state. -/
def preloadWoundSegmentationModel (st : ModelState) (outcome : Except String Unit) :
    Bool × ModelState :=
  if st.isLoaded || st.modelLoading then (st.isLoaded, st)
  else
    match outcome with
    | .ok _ => (true, { isLoaded := true, modelLoading := false, progress := 100,
                        loadErr := none })
    | .error m => (false, { isLoaded := false, modelLoading := false,
                            progress := st.progress, loadErr := some m })

/-- Outcome of the optional ML attempt inside analyzeWoundImage: the model
    may be unavailable, inference may succeed, or load/inference may throw. -/
inductive MLTry where
  | unavailable
  | success (r : DetectionResult)
  | err (msg : String)

/-- Detection-method label of the ML branch (lines 1406-1410). -/
def mlMethodLabel (opts : AnalysisOptions) : String :=
  if opts.boundingBox.isSome then "ML + User bounding box"
  else if opts.userOutline.isSome then "ML + User-guided detection"
  else "Neural network segmentation"

/-- Result record resolved by analyzeWoundImage (processedImageUrl is a
    canvas composite, outside the embedded core). -/
structure WoundAnalysisResult where
  estimatedArea : ℤ
  confidence : ℚ
  pixelCount : ℕ
  totalPixels : ℕ
  detectionMethod : String
  healingIndicators : HealingIndicators

/-- Area computation of lines 1482-1493 followed by the floor of line 1513:
    the calibrated path when referenceSize and referenceWidth are truthy,
    otherwise the assumed field of view (default 2500). -/
def estimatedAreaOf (opts : AnalysisOptions) (pixelCount totalPixels w : ℕ) : ℤ :=
  let raw : ℚ :=
    if optTruthy opts.referenceSize ∧ optTruthy opts.referenceWidth then
      let ppmm := opts.referenceWidth.getD 0 / ((w : ℚ) * (1/2))
      (pixelCount : ℚ) / (ppmm * ppmm)
    else
      ((pixelCount : ℚ) / (totalPixels : ℚ)) *
        (if optTruthy opts.assumedImageSize then opts.assumedImageSize.getD 0 else 2500)
  max 1 (jsRound raw)

/-- The pure core of analyzeWoundImage after the image has been decoded into
    a pixel buffer (lines 1357-1534): the ML attempt with its fallback, the
    heuristic branch, the area estimate and the healing indicators. -/
def analyzeWoundImageCore (th : ItaTangents) (rast : RoiRasterizer) (data : ℕ → Px)
    (w h : ℕ) (opts : AnalysisOptions) (ml : MLTry) : WoundAnalysisResult :=
  let picked : Option (DetectionResult × String) :=
    if opts.useML then
      match ml with
      | .success r => some (r, mlMethodLabel opts)
      | _ => none
    else none
  let chosen := match picked with
    | some pr => pr
    | none => heuristicPass th rast data w h opts
  { estimatedArea := estimatedAreaOf opts chosen.1.pixelCount chosen.1.totalPixels w
    confidence := chosen.1.confidence
    pixelCount := chosen.1.pixelCount
    totalPixels := chosen.1.totalPixels
    detectionMethod := chosen.2
    healingIndicators := analyzeWoundHealingIndicators data chosen.1.woundMask w h }

/-- Concrete fully opaque black pixel, used by the instantiation theorems. -/
def blackPx : Px := ⟨0, 0, 0, 255⟩

/-- Uniform opaque black buffer. -/
def blackImg : ℕ → Px := fun _ => blackPx

/-- A region-of-interest mask that excludes every pixel. -/
def roiFalseMask : ℕ → Bool := fun _ => false

/-- Concrete saturated red pixel. -/
def redPx : Px := ⟨200, 50, 50, 255⟩

/-- Uniform red buffer. -/
def redImg : ℕ → Px := fun _ => redPx

/-- A fully marked wound-mask pixel (alpha 255). -/
def markPx : Px := ⟨255, 0, 128, 255⟩

/-- Wound mask marking every pixel. -/
def markMask : ℕ → Px := fun _ => markPx

/-- Wound mask marking nothing. -/
def zeroMask : ℕ → Px := fun _ => Px.zero

/-- Background pixel of the 3x3 auto-boost example: a low-contrast skin tone. -/
def skinPx3 : Px := ⟨150, 147, 138, 255⟩

/-- Wound pixel of the 3x3 auto-boost example: reddish with saturation 1/9,
    between the high (0.09) and medium (0.12) adapted saturation floors. -/
def woundPx3 : Px := ⟨225, 201, 200, 255⟩

/-- The 3x3 auto-boost example buffer: the wound pixel at index 0. -/
def img3 : ℕ → Px := fun p => if p = 0 then woundPx3 else skinPx3

/-- Concrete tangent parameters close to tan of 55, 41, 28, 10 and -30
    degrees, used when a theorem quantifying over the parameters is
    instantiated. -/
def thW : ItaTangents := ⟨10/7, 6/7, 8/15, 3/17, -15/26⟩

/-- A rasterizer that includes every pixel. -/
def rastAll : RoiRasterizer := fun _ _ _ _ => fun _ => true

/-- Options selecting medium sensitivity and nothing else. -/
def optsMedium : AnalysisOptions := { sensitivityLevel := some .medium }

theorem confQ_nonneg (data : ℕ → Px) (w h : ℕ) (s : DetectionSettings)
    (roi : Option (ℕ → Bool)) (x y : ℕ) : 0 ≤ confQ data w h s roi x y :=
  le_min (by norm_num) (le_max_left 0 _)

theorem confQ_le_one (data : ℕ → Px) (w h : ℕ) (s : DetectionSettings)
    (roi : Option (ℕ → Bool)) (x y : ℕ) : confQ data w h s roi x y ≤ 1 :=
  min_le_left _ _

theorem lumaQ_nonneg (px : Px) : 0 ≤ lumaQ px := by
  unfold lumaQ
  positivity

theorem opqSum_nonneg (data : ℕ → Px) (n : ℕ) (f : Px → ℚ) (hf : ∀ px, 0 ≤ f px) :
    0 ≤ opqSum data n f := by
  refine Finset.sum_nonneg fun p _ => ?_
  split
  · exact hf _
  · exact le_rfl

theorem skinSumD_nonneg (data : ℕ → Px) (n : ℕ) (f : Px → ℚ) (hf : ∀ px, 0 ≤ f px) :
    0 ≤ skinSumD data n f := by
  refine Finset.sum_nonneg fun p _ => ?_
  split
  · exact hf _
  · exact le_rfl

theorem avgRedQ_nonneg (data : ℕ → Px) (w h : ℕ) : 0 ≤ avgRedQ data w h := by
  unfold avgRedQ
  split
  · exact div_nonneg (opqSum_nonneg _ _ _ fun px => by positivity) (by positivity)
  · exact le_rfl

theorem avgGreenQ_nonneg (data : ℕ → Px) (w h : ℕ) : 0 ≤ avgGreenQ data w h := by
  unfold avgGreenQ
  split
  · exact div_nonneg (opqSum_nonneg _ _ _ fun px => by positivity) (by positivity)
  · exact le_rfl

theorem avgBlueQ_nonneg (data : ℕ → Px) (w h : ℕ) : 0 ≤ avgBlueQ data w h := by
  unfold avgBlueQ
  split
  · exact div_nonneg (opqSum_nonneg _ _ _ fun px => by positivity) (by positivity)
  · exact le_rfl

theorem skinToneRQ_nonneg (data : ℕ → Px) (w h : ℕ) : 0 ≤ skinToneRQ data w h := by
  unfold skinToneRQ
  split
  · exact div_nonneg (skinSumD_nonneg _ _ _ fun px => by positivity) (by positivity)
  · exact avgRedQ_nonneg data w h

theorem skinToneGQ_nonneg (data : ℕ → Px) (w h : ℕ) : 0 ≤ skinToneGQ data w h := by
  unfold skinToneGQ
  split
  · exact div_nonneg (skinSumD_nonneg _ _ _ fun px => by positivity) (by positivity)
  · exact avgGreenQ_nonneg data w h

theorem skinToneBQ_nonneg (data : ℕ → Px) (w h : ℕ) : 0 ≤ skinToneBQ data w h := by
  unfold skinToneBQ
  split
  · exact div_nonneg (skinSumD_nonneg _ _ _ fun px => by positivity) (by positivity)
  · exact avgBlueQ_nonneg data w h

theorem skinLumaQ_nonneg (data : ℕ → Px) (w h : ℕ) : 0 ≤ skinLumaQ data w h := by
  unfold skinLumaQ
  have hR := skinToneRQ_nonneg data w h
  have hG := skinToneGQ_nonneg data w h
  have hB := skinToneBQ_nonneg data w h
  have h1 : (0 : ℚ) ≤ (299 : ℚ)/1000 * skinToneRQ data w h := by nlinarith
  have h2 : (0 : ℚ) ≤ (587 : ℚ)/1000 * skinToneGQ data w h := by nlinarith
  have h3 : (0 : ℚ) ≤ (114 : ℚ)/1000 * skinToneBQ data w h := by nlinarith
  linarith

theorem conf2Q_mem (data : ℕ → Px) (w h : ℕ) (roi : Option (ℕ → Bool)) (p : ℕ)
    (hp : pass2B data w h roi p = true) :
    0 ≤ conf2Q data w h p ∧ conf2Q data w h p ≤ 1 := by
  have hl : lumaQ (data p) < skinLumaQ data w h * (17/20) := by
    simp only [pass2B, Bool.and_eq_true, decide_eq_true_eq] at hp
    exact hp.1.2
  have h0 : 0 ≤ lumaQ (data p) := lumaQ_nonneg _
  have hsl : 0 < skinLumaQ data w h := by linarith
  have hmin0 : (0 : ℚ) ≤
      min 1 ((skinLumaQ data w h - lumaQ (data p)) / (skinLumaQ data w h * (3/10))) := by
    refine le_min (by norm_num) (div_nonneg (by linarith) (by linarith))
  have hmin1 :
      min 1 ((skinLumaQ data w h - lumaQ (data p)) / (skinLumaQ data w h * (3/10))) ≤ 1 :=
    min_le_left _ _
  unfold conf2Q
  constructor
  · linarith
  · linarith

theorem mean01 (S : Finset ℕ) (f : ℕ → ℚ) (h0 : ∀ p ∈ S, 0 ≤ f p)
    (h1 : ∀ p ∈ S, f p ≤ 1) :
    0 ≤ (∑ p ∈ S, f p) / (S.card : ℚ) ∧ (∑ p ∈ S, f p) / (S.card : ℚ) ≤ 1 := by
  refine ⟨div_nonneg (Finset.sum_nonneg h0) (Nat.cast_nonneg _), ?_⟩
  rcases Nat.eq_zero_or_pos S.card with hc | hc
  · rw [Finset.card_eq_zero.mp hc]
    simp
  · have hsum : (∑ p ∈ S, f p) ≤ (S.card : ℚ) := by
      calc (∑ p ∈ S, f p) ≤ ∑ p ∈ S, (1 : ℚ) := Finset.sum_le_sum h1
      _ = (S.card : ℚ) := by simp
    rw [div_le_one (by exact_mod_cast hc)]
    exact hsum

theorem pass1Cnt_le (data : ℕ → Px) (w h : ℕ) (s : DetectionSettings)
    (roi : Option (ℕ → Bool)) : pass1Cnt data w h s roi ≤ w * h := by
  unfold pass1Cnt pass1Set
  simpa using Finset.card_filter_le (Finset.range (w * h)) _

theorem pass2Cnt_le (data : ℕ → Px) (w h : ℕ) (roi : Option (ℕ → Bool)) :
    pass2Cnt data w h roi ≤ w * h := by
  unfold pass2Cnt pass2Set
  simpa using Finset.card_filter_le (Finset.range (w * h)) _

theorem finalCnt_le (data : ℕ → Px) (w h : ℕ) (s : DetectionSettings)
    (roi : Option (ℕ → Bool)) : finalCnt data w h s roi ≤ w * h := by
  unfold finalCnt
  split
  · exact pass2Cnt_le data w h roi
  · exact pass1Cnt_le data w h s roi

/-- C1: for every RGBA pixel buffer of width w and height h, any detection
    settings and any optional region-of-interest mask, the DetectionResult of
    the heuristic detectWound satisfies 0 ≤ pixelCount ≤ totalPixels with
    totalPixels = w*h; and the same bounds hold for the result of the ML
    postprocessing path detectWoundWithML, for every model output map and
    optional bounding box. -/
theorem C1_pixelCount_bounds :
    (∀ (data : ℕ → Px) (w h : ℕ) (s : DetectionSettings) (roi : Option (ℕ → Bool)),
      (detectWound data w h s roi).totalPixels = w * h ∧
      0 ≤ (detectWound data w h s roi).pixelCount ∧
      (detectWound data w h s roi).pixelCount ≤ (detectWound data w h s roi).totalPixels) ∧
    (∀ (out : ℕ → ℚ) (w h : ℕ) (box : Option MLBox),
      (detectWoundWithML out w h box).totalPixels = w * h ∧
      0 ≤ (detectWoundWithML out w h box).pixelCount ∧
      (detectWoundWithML out w h box).pixelCount ≤
        (detectWoundWithML out w h box).totalPixels) := by
  constructor
  · intro data w h s roi
    unfold detectWound
    by_cases hc : (finalCnt data w h s roi : ℚ) / ((w * h : ℕ) : ℚ) <
        (if roi.isSome then (1 : ℚ)/1000 else 1/200)
    · rw [if_pos hc]
      exact ⟨rfl, Nat.zero_le _, Nat.zero_le _⟩
    · rw [if_neg hc]
      exact ⟨rfl, Nat.zero_le _, finalCnt_le data w h s roi⟩
  · intro out w h box
    refine ⟨rfl, Nat.zero_le _, ?_⟩
    show (mlSet out w h box).card ≤ w * h
    unfold mlSet
    simpa using Finset.card_filter_le (Finset.range (w * h)) _

/-- C3: for every RGBA buffer (with no restriction on its content, so in
    particular for fully transparent and fully opaque buffers and for buffers
    with zero skin-tone or neighbourhood denominators, where the rational
    semantics put the affected ratios at 0), the confidence returned by
    detectWound lies in [0,1]: every per-pixel confidence accumulated by the
    main pass is clamped into [0,1] and every fallback-pass confidence lies in
    (0, 1/2], the returned value is their mean over the detected pixels, or 0
    when no pixel is detected or the noise floor triggers, and no NaN exists
    in this total exact-arithmetic semantics. -/
theorem C3_confidence_unit (data : ℕ → Px) (w h : ℕ) (s : DetectionSettings)
    (roi : Option (ℕ → Bool)) :
    0 ≤ (detectWound data w h s roi).confidence ∧
      (detectWound data w h s roi).confidence ≤ 1 := by
  have hcore : 0 ≤ (if 0 < finalCnt data w h s roi then
        finalSum data w h s roi / (finalCnt data w h s roi : ℚ) else 0) ∧
      (if 0 < finalCnt data w h s roi then
        finalSum data w h s roi / (finalCnt data w h s roi : ℚ) else 0) ≤ 1 := by
    by_cases hcnt : 0 < finalCnt data w h s roi
    · rw [if_pos hcnt]
      unfold finalSum finalCnt
      by_cases hP : pass2Active data w h s roi = true
      · rw [if_pos hP, if_pos hP]
        unfold pass2Sum pass2Cnt
        exact mean01 _ _
          (fun p hp => (conf2Q_mem data w h roi p (Finset.mem_filter.mp hp).2).1)
          (fun p hp => (conf2Q_mem data w h roi p (Finset.mem_filter.mp hp).2).2)
      · rw [if_neg hP, if_neg hP]
        unfold pass1Sum pass1Cnt
        exact mean01 _ _ (fun p _ => confQ_nonneg data w h s roi (p % w) (p / w))
          (fun p _ => confQ_le_one data w h s roi (p % w) (p / w))
    · rw [if_neg hcnt]
      exact ⟨le_rfl, by norm_num⟩
  unfold detectWound
  by_cases hc : (finalCnt data w h s roi : ℚ) / ((w * h : ℕ) : ℚ) <
      (if roi.isSome then (1 : ℚ)/1000 else 1/200)
  · rw [if_pos hc]
    exact ⟨le_rfl, by norm_num⟩
  · rw [if_neg hc]
    exact hcore

/-- C4: for every input to detectWound, if the detected fraction of pixels is
    below the noise floor (0.1 percent of total pixels when an ROI mask is
    supplied, 0.5 percent otherwise), the returned DetectionResult has
    pixelCount = 0 and confidence = 0. -/
theorem C4_noise_floor (data : ℕ → Px) (w h : ℕ) (s : DetectionSettings)
    (roi : Option (ℕ → Bool))
    (hfrac : (finalCnt data w h s roi : ℚ) / ((w * h : ℕ) : ℚ) <
      (if roi.isSome then (1 : ℚ)/1000 else 1/200)) :
    (detectWound data w h s roi).pixelCount = 0 ∧
      (detectWound data w h s roi).confidence = 0 := by
  unfold detectWound
  rw [if_pos hfrac]
  exact ⟨rfl, rfl⟩

/-- Closed instantiation of C4_noise_floor at an opaque black 2x2 buffer with
    no ROI mask: nothing is detected, so the fraction 0 is below 1/200. -/
theorem C4_noise_floor_witness :
    ((finalCnt blackImg 2 2 (sensitivitySettings .medium) none : ℚ) /
        ((2 * 2 : ℕ) : ℚ) <
      (if (none : Option (ℕ → Bool)).isSome then (1 : ℚ)/1000 else 1/200)) ∧
    (detectWound blackImg 2 2 (sensitivitySettings .medium) none).pixelCount = 0 ∧
    (detectWound blackImg 2 2 (sensitivitySettings .medium) none).confidence = 0 := by
  have hf : (finalCnt blackImg 2 2 (sensitivitySettings .medium) none : ℚ) /
      ((2 * 2 : ℕ) : ℚ) <
      (if (none : Option (ℕ → Bool)).isSome then (1 : ℚ)/1000 else 1/200) :=
    of_decide_eq_true (by with_unfolding_all rfl)
  exact ⟨hf, C4_noise_floor blackImg 2 2 (sensitivitySettings .medium) none hf⟩

/-- C5: with a region-of-interest mask supplied, every pixel whose mask entry
    is false is never marked in the returned wound mask: its four bytes stay
    zero, both for the main classification pass and for the dark-skin
    fallback pass. -/
theorem C5_roi_never_marked (data : ℕ → Px) (w h : ℕ) (s : DetectionSettings)
    (m : ℕ → Bool) (p : ℕ) (hm : m p = false) :
    (detectWound data w h s (some m)).woundMask p = Px.zero := by
  have h1 : pass1B data w h s (some m) p = false := by
    simp [pass1B, roiPass, hm]
  have h2 : pass2B data w h (some m) p = false := by
    simp [pass2B, roiPass, hm]
  have hmask : maskPx data w h s (some m) p = Px.zero := by
    unfold maskPx
    rw [if_neg, if_neg]
    · rintro ⟨-, hc⟩
      rw [h1] at hc
      exact Bool.false_ne_true hc
    · rintro ⟨-, -, hc⟩
      rw [h2] at hc
      exact Bool.false_ne_true hc
  unfold detectWound
  by_cases hc : (finalCnt data w h s (some m) : ℚ) / ((w * h : ℕ) : ℚ) <
      (if (some m).isSome then (1 : ℚ)/1000 else 1/200)
  · rw [if_pos hc]
    exact hmask
  · rw [if_neg hc]
    exact hmask

/-- Closed instantiation of C5_roi_never_marked at a 1x1 black buffer with an
    all-false ROI mask. -/
theorem C5_roi_never_marked_witness :
    roiFalseMask 0 = false ∧
    (detectWound blackImg 1 1 (sensitivitySettings .medium)
        (some roiFalseMask)).woundMask 0 = Px.zero :=
  ⟨rfl, C5_roi_never_marked blackImg 1 1 (sensitivitySettings .medium) roiFalseMask 0 rfl⟩

theorem bucket_trichotomy (px : Px) : bucketOf px = 0 ∨ bucketOf px = 1 ∨ bucketOf px = 2 := by
  unfold bucketOf
  split_ifs <;> simp

theorem tissue_partition (data mask : ℕ → Px) (w h : ℕ) :
    granCnt data mask w h + sloughCnt data mask w h + escharCnt data mask w h =
      healCnt data mask w h := by
  classical
  unfold granCnt sloughCnt escharCnt healCnt
  have hd1 : Disjoint ((healSet data mask w h).filter (fun p => bucketOf (data p) = 0))
      ((healSet data mask w h).filter (fun p => bucketOf (data p) = 1)) := by
    rw [Finset.disjoint_left]
    intro a ha hb
    simp only [Finset.mem_filter] at ha hb
    omega
  have hd2 : Disjoint (((healSet data mask w h).filter (fun p => bucketOf (data p) = 0)) ∪
        ((healSet data mask w h).filter (fun p => bucketOf (data p) = 1)))
      ((healSet data mask w h).filter (fun p => bucketOf (data p) = 2)) := by
    rw [Finset.disjoint_left]
    intro a ha hb
    simp only [Finset.mem_union, Finset.mem_filter] at ha hb
    rcases ha with hcase | hcase <;> omega
  rw [← Finset.card_union_of_disjoint hd1, ← Finset.card_union_of_disjoint hd2]
  congr 1
  ext p
  simp only [Finset.mem_union, Finset.mem_filter]
  constructor
  · rintro ((⟨hp, -⟩ | ⟨hp, -⟩) | ⟨hp, -⟩) <;> exact hp
  · intro hp
    rcases bucket_trichotomy (data p) with hcase | hcase | hcase
    · exact Or.inl (Or.inl ⟨hp, hcase⟩)
    · exact Or.inl (Or.inr ⟨hp, hcase⟩)
    · exact Or.inr ⟨hp, hcase⟩

/-- C6: for every image buffer and wound mask, the tissue-type fractions of
    analyzeWoundHealingIndicators are exactly 0, 0, 0 when its wound pixel
    count is zero, and sum to exactly 1 whenever that count is positive
    (exactly, since the arithmetic is exact; the source only incurs float
    rounding).  Every counted wound pixel lands in exactly one of the three
    buckets of the classification chain, so the bucket total equals the
    wound pixel count. -/
theorem C6_tissue_fractions (data mask : ℕ → Px) (w h : ℕ) :
    (healCnt data mask w h = 0 →
      (analyzeWoundHealingIndicators data mask w h).granulation = 0 ∧
      (analyzeWoundHealingIndicators data mask w h).slough = 0 ∧
      (analyzeWoundHealingIndicators data mask w h).eschar = 0) ∧
    (0 < healCnt data mask w h →
      (analyzeWoundHealingIndicators data mask w h).granulation +
        (analyzeWoundHealingIndicators data mask w h).slough +
        (analyzeWoundHealingIndicators data mask w h).eschar = 1) := by
  have hpart := tissue_partition data mask w h
  constructor
  · intro h0
    have htot : ¬ (0 < granCnt data mask w h + sloughCnt data mask w h +
        escharCnt data mask w h) := by omega
    unfold analyzeWoundHealingIndicators
    refine ⟨?_, ?_, ?_⟩ <;> · show (if _ < _ then _ else (0 : ℚ)) = 0
                              rw [if_neg htot]
  · intro hpos
    have htot : 0 < granCnt data mask w h + sloughCnt data mask w h +
        escharCnt data mask w h := by omega
    unfold analyzeWoundHealingIndicators
    show (if _ < _ then _ else (0 : ℚ)) + (if _ < _ then _ else (0 : ℚ)) +
        (if _ < _ then _ else (0 : ℚ)) = 1
    rw [if_pos htot, if_pos htot, if_pos htot, div_add_div_same, div_add_div_same]
    rw [show ((granCnt data mask w h : ℚ) + (sloughCnt data mask w h : ℚ) +
        (escharCnt data mask w h : ℚ)) = ((granCnt data mask w h +
        sloughCnt data mask w h + escharCnt data mask w h : ℕ) : ℚ) by push_cast; ring]
    exact div_self (by exact_mod_cast htot.ne')

/-- Closed instantiation of C6_tissue_fractions: the zero mask on a black 1x1
    buffer gives the all-zero fractions, and an all-marking mask on a red 1x1
    buffer gives fractions summing to 1. -/
theorem C6_tissue_fractions_witness :
    ((analyzeWoundHealingIndicators blackImg zeroMask 1 1).granulation = 0 ∧
     (analyzeWoundHealingIndicators blackImg zeroMask 1 1).slough = 0 ∧
     (analyzeWoundHealingIndicators blackImg zeroMask 1 1).eschar = 0) ∧
    ((analyzeWoundHealingIndicators redImg markMask 1 1).granulation +
      (analyzeWoundHealingIndicators redImg markMask 1 1).slough +
      (analyzeWoundHealingIndicators redImg markMask 1 1).eschar = 1) :=
  ⟨(C6_tissue_fractions blackImg zeroMask 1 1).1 (by with_unfolding_all rfl),
   (C6_tissue_fractions redImg markMask 1 1).2
     (of_decide_eq_true (by with_unfolding_all rfl))⟩

/-- C2: for every decoded buffer and any analysis options, the estimatedArea
    field resolved by the analyzeWoundImage core is an integer at least 1
    (the field is integer-valued by construction: it is the Math.round of the
    raw area, floored at 1), on the calibrated path and on the
    assumed-field-of-view path alike. -/
theorem C2_estimatedArea_ge_one (th : ItaTangents) (rast : RoiRasterizer)
    (data : ℕ → Px) (w h : ℕ) (opts : AnalysisOptions) (ml : MLTry) :
    1 ≤ (analyzeWoundImageCore th rast data w h opts ml).estimatedArea := by
  show 1 ≤ estimatedAreaOf opts _ _ w
  unfold estimatedAreaOf
  exact le_max_left _ _

/-- C7: if the segmentation model load or inference fails while useML is
    requested, the analyzeWoundImage core still produces the
    WoundAnalysisResult of the heuristic detector (instead of rejecting), and
    preloadWoundSegmentationModel applied to a failing load from the idle
    state returns false and records the error message instead of throwing. -/
theorem C7_ml_failure_fallback :
    (∀ (th : ItaTangents) (rast : RoiRasterizer) (data : ℕ → Px) (w h : ℕ)
        (opts : AnalysisOptions) (m : String),
      (analyzeWoundImageCore th rast data w h opts (MLTry.err m)).detectionMethod =
          (heuristicPass th rast data w h opts).2 ∧
      (analyzeWoundImageCore th rast data w h opts (MLTry.err m)).pixelCount =
          (heuristicPass th rast data w h opts).1.pixelCount ∧
      (analyzeWoundImageCore th rast data w h opts (MLTry.err m)).totalPixels =
          (heuristicPass th rast data w h opts).1.totalPixels ∧
      (analyzeWoundImageCore th rast data w h opts (MLTry.err m)).confidence =
          (heuristicPass th rast data w h opts).1.confidence) ∧
    (∀ (pr : ℕ) (e : Option String) (m : String),
      preloadWoundSegmentationModel ⟨false, false, pr, e⟩ (Except.error m) =
        (false, ⟨false, false, pr, some m⟩)) := by
  constructor
  · intro th rast data w h opts m
    unfold analyzeWoundImageCore
    cases hu : opts.useML <;> simp [hu]
  · intro pr e m
    rfl

/-- C9: the exported autoSegmentWound is a stub: for every buffer, size and
    skin-tone profile it returns pixelCount 0, confidence 0 and the all-zero
    mask of length w*h*4, and its value does not depend on the image or the
    skin-tone argument. -/
theorem C9_autoSegment_stub (img : ℕ → Px) (w h : ℕ) (st : SkinToneAnalysis) :
    autoSegmentWound img w h st = (List.replicate (w * h * 4) 0, 0, 0) ∧
    (∀ (img2 : ℕ → Px) (st2 : SkinToneAnalysis),
      autoSegmentWound img w h st = autoSegmentWound img2 w h st2) :=
  ⟨rfl, fun _ _ => rfl⟩

theorem listSumB_lt_listSumR (l : List Px) (hne : l ≠ [])
    (hlt : ∀ px ∈ l, (px.b : ℚ) < (px.r : ℚ)) :
    (l.map (fun px => (px.b : ℚ))).sum < (l.map (fun px => (px.r : ℚ))).sum := by
  induction l with
  | nil => exact absurd rfl hne
  | cons a t ih =>
    simp only [List.map_cons, List.sum_cons]
    cases t with
    | nil => simpa using hlt a (List.mem_cons_self a [])
    | cons c t2 =>
      have h1 := hlt a (List.mem_cons_self a _)
      have h2 := ih (by simp) (fun px hpx => hlt px (List.mem_cons_of_mem a hpx))
      simp only [List.map_cons, List.sum_cons] at h2 ⊢
      linarith

theorem skinSamples_b_lt_r (data : ℕ → Px) (w h : ℕ) (px : Px)
    (hpx : px ∈ skinSamples data w h) : (px.b : ℚ) < (px.r : ℚ) := by
  unfold skinSamples at hpx
  have hb := (List.mem_filter.mp hpx).2
  simp only [Bool.and_eq_true, isSkinPixel, decide_eq_true_eq] at hb
  exact_mod_cast hb.2.1.1.1.1.2

theorem avgSkin_chroma_neg (data : ℕ → Px) (w h : ℕ) :
    (avgSkinQ data w h).2.2 < (avgSkinQ data w h).1 := by
  simp only [avgSkinQ]
  split_ifs with hlen
  · dsimp only
    have hlen' : (0 : ℚ) < ((skinSamples data w h).length : ℚ) := by exact_mod_cast hlen
    rw [div_lt_div_iff_of_pos_right hlen']
    exact listSumB_lt_listSumR _ (List.length_pos.mp hlen)
      (fun px hpx => skinSamples_b_lt_r data w h px hpx)
  · norm_num

theorem fitzFromU_antitone (th : ItaTangents) (h54 : th.t5 ≤ th.t4)
    (h43 : th.t4 ≤ th.t3) (h32 : th.t3 ≤ th.t2) (h21 : th.t2 ≤ th.t1)
    {u v : ℚ} (huv : u ≤ v) : fitzFromU th v ≤ fitzFromU th u := by
  unfold fitzFromU
  split_ifs <;> first | omega | linarith

/-- C8: the chroma term (B-R)/2 of the sampled average skin colour is always
    negative (every accepted skin sample and the neutral fallback have B < R),
    and holding any negative chroma fixed, the Fitzpatrick band assignment is
    monotone in the average luminance: strictly increasing luminance never
    decreases the assigned type, for every ordered choice of the tangent
    parameters that represent the fixed ITA bands 55, 41, 28, 10, -30 (the
    source classification equals fitzFromU at the tangents of these bands,
    since arctan is strictly increasing). -/
theorem C8_fitz_monotone :
    (∀ (th : ItaTangents) (data : ℕ → Px) (w h : ℕ),
      (analyzeSkinTone th data w h).avgB < (analyzeSkinTone th data w h).avgR) ∧
    (∀ (th : ItaTangents) (cb lum1 lum2 : ℚ),
      th.t5 ≤ th.t4 → th.t4 ≤ th.t3 → th.t3 ≤ th.t2 → th.t2 ≤ th.t1 →
      cb < 0 → lum1 < lum2 →
      fitzFromU th (uOfLum lum1 cb) ≤ fitzFromU th (uOfLum lum2 cb)) := by
  constructor
  · intro th data w h
    show (avgSkinQ data w h).2.2 < (avgSkinQ data w h).1
    exact avgSkin_chroma_neg data w h
  · intro th cb lum1 lum2 h54 h43 h32 h21 hcb hl
    have hu : uOfLum lum2 cb ≤ uOfLum lum1 cb := by
      unfold uOfLum
      exact le_of_lt (div_lt_div_of_neg_of_lt hcb (by linarith))
    exact fitzFromU_antitone th h54 h43 h32 h21 hu

/-- Closed instantiation of the monotone part of C8_fitz_monotone at the
    concrete tangent parameters, chroma -1, and luminances 0 and 255. -/
theorem C8_fitz_monotone_witness :
    fitzFromU thW (uOfLum 0 (-1)) ≤ fitzFromU thW (uOfLum 255 (-1)) :=
  C8_fitz_monotone.2 thW (-1) 0 255 (by norm_num [thW]) (by norm_num [thW])
    (by norm_num [thW]) (by norm_num [thW]) (by norm_num) (by norm_num)

/-- C10: in the heuristic branch of analyzeWoundImage, when the requested
    sensitivity (default medium) is not high and the first detection pass
    returns pixelCount = 0, the pass is silently re-run with the
    skin-tone-adapted high preset, and whenever that second pass finds any
    pixels the returned result is the high-sensitivity result with
    " (auto-boosted sensitivity)" appended to the method label, so the result
    need not correspond to the requested sensitivity. -/
theorem C10_auto_boost (th : ItaTangents) (rast : RoiRasterizer) (data : ℕ → Px)
    (w h : ℕ) (opts : AnalysisOptions)
    (hsens : opts.sensitivityLevel.getD .medium ≠ .high)
    (h1 : (detectWound data w h
      (adaptSettingsForSkinTone
        (sensitivitySettings (opts.sensitivityLevel.getD .medium))
        (analyzeSkinTone th data w h)) (roiOf rast opts w h)).pixelCount = 0)
    (h2 : 0 < (detectWound data w h
      (adaptSettingsForSkinTone (sensitivitySettings .high)
        (analyzeSkinTone th data w h)) (roiOf rast opts w h)).pixelCount) :
    heuristicPass th rast data w h opts =
      (detectWound data w h
        (adaptSettingsForSkinTone (sensitivitySettings .high)
          (analyzeSkinTone th data w h)) (roiOf rast opts w h),
       ((if (roiOf rast opts w h).isSome then
           "User-guided " ++ ("Color analysis (" ++
             sensitivityName (opts.sensitivityLevel.getD .medium) ++ " sensitivity)")
         else "Color analysis (" ++
             sensitivityName (opts.sensitivityLevel.getD .medium) ++ " sensitivity)") ++
         " (auto-boosted sensitivity)") ++ " - " ++
         getFitzpatrickDescription (analyzeSkinTone th data w h).fitzpatrickType) := by
  simp only [heuristicPass]
  rw [if_pos ⟨h1, hsens⟩, if_pos h2]

/-- Closed instantiation of C10_auto_boost: on the 3x3 buffer img3 the medium
    pass detects nothing while the high pass detects the corner pixel, so the
    result is auto-boosted. -/
theorem C10_auto_boost_witness :
    (optsMedium.sensitivityLevel.getD .medium ≠ .high) ∧
    ((detectWound img3 3 3
      (adaptSettingsForSkinTone
        (sensitivitySettings (optsMedium.sensitivityLevel.getD .medium))
        (analyzeSkinTone thW img3 3 3)) (roiOf rastAll optsMedium 3 3)).pixelCount = 0) ∧
    (0 < (detectWound img3 3 3
      (adaptSettingsForSkinTone (sensitivitySettings .high)
        (analyzeSkinTone thW img3 3 3)) (roiOf rastAll optsMedium 3 3)).pixelCount) ∧
    heuristicPass thW rastAll img3 3 3 optsMedium =
      (detectWound img3 3 3
        (adaptSettingsForSkinTone (sensitivitySettings .high)
          (analyzeSkinTone thW img3 3 3)) (roiOf rastAll optsMedium 3 3),
       ((if (roiOf rastAll optsMedium 3 3).isSome then
           "User-guided " ++ ("Color analysis (" ++
             sensitivityName (optsMedium.sensitivityLevel.getD .medium) ++ " sensitivity)")
         else "Color analysis (" ++
             sensitivityName (optsMedium.sensitivityLevel.getD .medium) ++ " sensitivity)") ++
         " (auto-boosted sensitivity)") ++ " - " ++
         getFitzpatrickDescription (analyzeSkinTone thW img3 3 3).fitzpatrickType) := by
  have hsens : optsMedium.sensitivityLevel.getD .medium ≠ .high := by decide
  have h1 : (detectWound img3 3 3
      (adaptSettingsForSkinTone
        (sensitivitySettings (optsMedium.sensitivityLevel.getD .medium))
        (analyzeSkinTone thW img3 3 3)) (roiOf rastAll optsMedium 3 3)).pixelCount = 0 := by
    with_unfolding_all rfl
  have h2 : 0 < (detectWound img3 3 3
      (adaptSettingsForSkinTone (sensitivitySettings .high)
        (analyzeSkinTone thW img3 3 3)) (roiOf rastAll optsMedium 3 3)).pixelCount :=
    of_decide_eq_true (by with_unfolding_all rfl)
  exact ⟨hsens, h1, h2, C10_auto_boost thW rastAll img3 3 3 optsMedium hsens h1 h2⟩
